import Mathlib

/-!
Shallow embedding of `src/api.py` (FastAPI gateway "API Recherche Web
Gratuite"): the four GET endpoints `/search`, `/news`, `/images` and
`/wikipedia`, their request validation, result normalization and
error translation.  External provider calls (DuckDuckGo via `ddgs`,
Wikipedia via `httpx`) are modelled by passing the provider outcome as
an explicit argument (`Except` for transport failure); the handlers
below mirror the Python control flow line by line.
-/

namespace ApiRechercheWeb

/-! ## Python string primitives used by api.py -/

/-- Characters that `str.strip()` removes (Python ASCII whitespace). -/
def isPySpace (c : Char) : Bool :=
  c = ' ' || c = '\t' || c = '\n' || c = '\x0D' || c = '\x0B' || c = '\x0C'

/-- Model of Python `s.strip()`: drop leading and trailing whitespace. -/
def pyStrip (s : String) : String :=
  String.mk (((s.toList.dropWhile isPySpace).reverse.dropWhile isPySpace).reverse)

/-- Model of Python slicing `s[:n]`: the first `n` characters of `s`. -/
def pySlice (n : Nat) (s : String) : String :=
  String.mk (s.toList.take n)

/-- Model of Python `title.replace(' ', '_')` (used in the Wikipedia URLs):
every space character becomes an underscore. -/
def underscoreSpaces (s : String) : String :=
  String.mk (s.toList.map (fun c => if c = ' ' then '_' else c))

/-- Fuel-indexed worker for `removeSub`; every step consumes at least one
character and exactly one unit of fuel, so fuel `l.length` suffices. -/
def removeSubAux (pat : List Char) : Nat → List Char → List Char
  | 0, _ => []
  | _ + 1, [] => []
  | fuel + 1, c :: rest =>
    if pat ≠ [] ∧ pat.isPrefixOf (c :: rest) then
      removeSubAux pat fuel (List.drop (pat.length - 1) rest)
    else
      c :: removeSubAux pat fuel rest

/-- Remove every occurrence of the pattern `pat` from `l`, scanning left to
right: model of Python `s.replace(pat, "")` on character lists. -/
def removeSub (pat : List Char) (l : List Char) : List Char :=
  removeSubAux pat l.length l

/-- Model of the snippet cleanup in `recherche_wikipedia`:
`.replace("<span class=\x22searchmatch\x22>", "").replace("</span>", "")`. -/
def stripSearchmatch (s : String) : String :=
  String.mk (removeSub ("</span>".toList)
    (removeSub ("<span class=\x22searchmatch\x22>".toList) s.toList))

/-! ## HTTP result model -/

/-- Outcome of one request: a JSON success body, or an `HTTPException`
carrying a status code and a detail string. -/
inductive HttpResult (α : Type) where
  | ok (body : α)
  | error (status : Nat) (detail : String)
deriving DecidableEq, Repr

/-- Status code of an error result (`none` on success). -/
def HttpResult.errStatus : HttpResult α → Option Nat
  | .ok _ => none
  | .error s _ => some s

/-- Success body of a result (`none` on error). -/
def HttpResult.body? : HttpResult α → Option α
  | .ok b => some b
  | .error _ _ => none

/-- Detail string of `HTTPException(400, ...)` for a missing/blank `q`. -/
def detailBlankQ : String := "Parametre \x27q\x27 requis et non vide."

/-- Detail string when the DDGS import failed. -/
def detailNoEngine : String := "Moteur de recherche non disponible."

/-- Detail string of the DDGS endpoints for a provider exception `e`. -/
def detailSearchErr (e : String) : String :=
  "Erreur lors de la recherche : " ++ e

/-- Detail string of `/wikipedia` for a provider exception `e`. -/
def detailWikiErr (e : String) : String := "Erreur Wikipedia : " ++ e

/-- Python `str(KeyError("title"))`, the exception text when a search
record is indexed with the absent key `"title"`. -/
def keyErrorTitle : String := "\x27title\x27"

/-! ## Raw provider records (opaque key-value mappings)

Each field is `Option`-valued: `some v` when the provider record carries
the key, `none` when `dict.get` would fall back to its default. -/

/-- Raw record of `ddgs.text` as read by `/search` (keys `title`, `href`,
`body`). -/
structure RawWebItem where
  title : Option String
  href : Option String
  body : Option String
deriving DecidableEq, Repr

/-- Raw record of `ddgs.news` as read by `/news`. -/
structure RawNewsItem where
  title : Option String
  url : Option String
  body : Option String
  date : Option String
  source : Option String
deriving DecidableEq, Repr

/-- Raw record of `ddgs.images` as read by `/images`. -/
structure RawImageItem where
  title : Option String
  url : Option String
  image : Option String
  thumbnail : Option String
  source : Option String
deriving DecidableEq, Repr

/-- A `ddgs.text` record carrying none of the read keys. -/
def rawWebEmpty : RawWebItem :=
  { title := none, href := none, body := none }

/-- A `ddgs.news` record carrying none of the read keys. -/
def rawNewsEmpty : RawNewsItem :=
  { title := none, url := none, body := none, date := none, source := none }

/-- A `ddgs.images` record carrying none of the read keys. -/
def rawImageEmpty : RawImageItem :=
  { title := none, url := none, image := none, thumbnail := none,
    source := none }

/-! ## Output records (pydantic models, after `model_dump`) -/

/-- `SearchResult` of api.py. -/
structure SearchResult where
  title : String
  url : String
  content : String
  source : String
deriving DecidableEq, Repr

/-- `NewsResult` of api.py. -/
structure NewsResult where
  title : String
  url : String
  body : String
  date : String
  source : String
deriving DecidableEq, Repr

/-- `ImageResult` of api.py. -/
structure ImageResult where
  title : String
  url : String
  image_url : String
  thumbnail : String
  source : String
deriving DecidableEq, Repr

/-- Normalization of one raw `ddgs.text` record in `recherche_web`. -/
def normWeb (item : RawWebItem) : SearchResult :=
  { title := item.title.getD "Sans titre"
    url := item.href.getD ""
    content := item.body.getD ""
    source := "DuckDuckGo" }

/-- Normalization of one raw `ddgs.news` record in `recherche_actualites`. -/
def normNews (item : RawNewsItem) : NewsResult :=
  { title := item.title.getD "Sans titre"
    url := item.url.getD ""
    body := item.body.getD ""
    date := item.date.getD ""
    source := item.source.getD "" }

/-- Normalization of one raw `ddgs.images` record in `recherche_images`. -/
def normImages (item : RawImageItem) : ImageResult :=
  { title := item.title.getD "Sans titre"
    url := item.url.getD ""
    image_url := item.image.getD ""
    thumbnail := item.thumbnail.getD ""
    source := item.source.getD "" }

/-! ## Success bodies -/

/-- Success body of `/search`. -/
structure WebResponse where
  query : String
  region : String
  count : Nat
  results : List SearchResult
deriving DecidableEq, Repr

/-- Success body of `/news`. -/
structure NewsResponse where
  query : String
  region : String
  count : Nat
  results : List NewsResult
deriving DecidableEq, Repr

/-- Success body of `/images`. -/
structure ImagesResponse where
  query : String
  region : String
  count : Nat
  results : List ImageResult
deriving DecidableEq, Repr

/-- A handler outcome together with the number of provider calls the
handler issued on that control path. -/
structure DdgsOutcome (α : Type) where
  response : HttpResult α
  providerCalls : Nat
deriving DecidableEq, Repr

/-! ## The three DDGS handlers

`ddgsAvailable` models the module-level `DDGS_AVAILABLE` flag and
`providerResp` the outcome of the single `ddgs.text/news/images` call
(`Except.error e` when the call raises an exception with text `e`). -/

/-- Handler body of `GET /search` (`recherche_web` in api.py). -/
def recherche_web (ddgsAvailable : Bool) (q : String) (_max_results : Int)
    (region : String) (providerResp : Except String (List RawWebItem)) :
    DdgsOutcome WebResponse :=
  if q = "" || pyStrip q = "" then
    ⟨.error 400 detailBlankQ, 0⟩
  else if !ddgsAvailable then
    ⟨.error 503 detailNoEngine, 0⟩
  else
    match providerResp with
    | .error e => ⟨.error 503 (detailSearchErr e), 1⟩
    | .ok raw =>
      let results := raw.map normWeb
      ⟨.ok { query := q, region := region, count := results.length,
             results := results }, 1⟩

/-- Handler body of `GET /news` (`recherche_actualites` in api.py). -/
def recherche_actualites (ddgsAvailable : Bool) (q : String)
    (_max_results : Int) (region : String)
    (providerResp : Except String (List RawNewsItem)) :
    DdgsOutcome NewsResponse :=
  if q = "" || pyStrip q = "" then
    ⟨.error 400 detailBlankQ, 0⟩
  else if !ddgsAvailable then
    ⟨.error 503 detailNoEngine, 0⟩
  else
    match providerResp with
    | .error e => ⟨.error 503 (detailSearchErr e), 1⟩
    | .ok raw =>
      let results := raw.map normNews
      ⟨.ok { query := q, region := region, count := results.length,
             results := results }, 1⟩

/-- Handler body of `GET /images` (`recherche_images` in api.py). -/
def recherche_images (ddgsAvailable : Bool) (q : String)
    (_max_results : Int) (region : String)
    (providerResp : Except String (List RawImageItem)) :
    DdgsOutcome ImagesResponse :=
  if q = "" || pyStrip q = "" then
    ⟨.error 400 detailBlankQ, 0⟩
  else if !ddgsAvailable then
    ⟨.error 503 detailNoEngine, 0⟩
  else
    match providerResp with
    | .error e => ⟨.error 503 (detailSearchErr e), 1⟩
    | .ok raw =>
      let results := raw.map normImages
      ⟨.ok { query := q, region := region, count := results.length,
             results := results }, 1⟩

/-! ## The /wikipedia handler

The two sequential provider calls are modelled by two arguments:
`searchResp` is the parsed `data["query"]["search"]` list of the first
call (`Except.error e` when `httpx`/`raise_for_status`/JSON raises an
exception with text `e`), and `summaryResp` is the `page.get("extract")`
value of the second call (inner `Option` = presence of the `extract`
key; absent page values also yield `none`).  `searchCalls`/`fetchCalls`
count how many of the two HTTP calls the control path issued. -/

/-- Raw record of the Wikipedia search list: `title` is read by
subscription (`item["title"]`, no default), the other keys via `.get`. -/
structure WikiSearchItem where
  title : Option String
  snippet : Option String
  wordcount : Option Nat
deriving DecidableEq, Repr

/-- One entry of the `results` list of `/wikipedia`. -/
structure WikiResultItem where
  title : String
  url : String
  snippet : String
  wordcount : Nat
deriving DecidableEq, Repr

/-- The `top_article` object of `/wikipedia`. -/
structure TopArticle where
  title : String
  url : String
  extract : String
deriving DecidableEq, Repr

/-- Success body of `/wikipedia`; `top_article := none` models the
zero-candidate body `{"query", "lang", "count", "results"}`, which has
no `top_article` key at all. -/
structure WikiResponse where
  query : String
  lang : String
  count : Nat
  top_article : Option TopArticle
  results : List WikiResultItem
deriving DecidableEq, Repr

/-- Outcome of `/wikipedia` with the number of issued provider calls. -/
structure WikiOutcome where
  response : HttpResult WikiResponse
  searchCalls : Nat
  fetchCalls : Nat
deriving DecidableEq, Repr

/-- URL built at lines 254 and 267 of api.py:
`f"https://{lang}.wikipedia.org/wiki/{title.replace(' ', '_')}"`. -/
def wikiUrl (lang title : String) : String :=
  "https://" ++ lang ++ ".wikipedia.org/wiki/" ++ underscoreSpaces title

/-- Evaluation of a Python list comprehension whose element expression
may raise: left to right, the first exception aborts the whole list. -/
def mapExcept (f : α → Except ε β) : List α → Except ε (List β)
  | [] => .ok []
  | a :: l =>
    match f a with
    | .error e => .error e
    | .ok b =>
      match mapExcept f l with
      | .error e => .error e
      | .ok bs => .ok (b :: bs)

/-- One entry of the `results` comprehension of `recherche_wikipedia`:
`item["title"]` raises `KeyError` when the key is absent. -/
def normWiki (lang : String) (item : WikiSearchItem) :
    Except String WikiResultItem :=
  match item.title with
  | none => .error keyErrorTitle
  | some t =>
    .ok { title := t
          url := wikiUrl lang t
          snippet := stripSearchmatch (item.snippet.getD "")
          wordcount := item.wordcount.getD 0 }

/-- Handler body of `GET /wikipedia` (`recherche_wikipedia` in api.py). -/
def recherche_wikipedia (q lang : String)
    (searchResp : Except String (List WikiSearchItem))
    (summaryResp : Except String (Option String)) : WikiOutcome :=
  if q = "" || pyStrip q = "" then
    ⟨.error 400 detailBlankQ, 0, 0⟩
  else
    match searchResp with
    | .error e => ⟨.error 503 (detailWikiErr e), 1, 0⟩
    | .ok search_results =>
      match search_results with
      | [] => ⟨.ok { query := q, lang := lang, count := 0,
                     top_article := none, results := [] }, 1, 0⟩
      | first :: rest =>
        match first.title with
        | none => ⟨.error 503 (detailWikiErr keyErrorTitle), 1, 0⟩
        | some top_title =>
          match summaryResp with
          | .error e => ⟨.error 503 (detailWikiErr e), 1, 1⟩
          | .ok extractOpt =>
            let extract := pySlice 1000 (extractOpt.getD "")
            match mapExcept (normWiki lang) (first :: rest) with
            | .error e => ⟨.error 503 (detailWikiErr e), 1, 1⟩
            | .ok results =>
              ⟨.ok { query := q, lang := lang, count := results.length,
                     top_article := some
                       { title := top_title
                         url := wikiUrl lang top_title
                         extract := extract }
                     results := results }, 1, 1⟩

/-! ## FastAPI dispatch layer

The route signatures declare `q: str = Query(...)`,
`max_results: int = Query(10, ge=1, le=50)`, `region`/`lang` with plain
string defaults.  FastAPI evaluates these declared constraints before
the handler body runs and answers a request--validation failure with
HTTP status 422 (`RequestValidationError`); the handler is then never
entered.  `none` in a raw request models an absent query parameter. -/

/-- Raw query string of a `/search`, `/news` or `/images` request. -/
structure DdgsRawRequest where
  q : Option String
  max_results : Option Int
  region : Option String
deriving DecidableEq, Repr

/-- Raw query string of a `/wikipedia` request. -/
structure WikiRawRequest where
  q : Option String
  lang : Option String
deriving DecidableEq, Repr

/-- Placeholder for the JSON detail FastAPI attaches to a 422 answer. -/
def detail422 : String := "request validation error"

/-- Route dispatch of `GET /search`: FastAPI validation of the declared
parameters, then the handler body. -/
def dispatch_search (ddgsAvailable : Bool) (req : DdgsRawRequest)
    (providerResp : Except String (List RawWebItem)) :
    DdgsOutcome WebResponse :=
  match req.q with
  | none => ⟨.error 422 detail422, 0⟩
  | some q =>
    let mr := req.max_results.getD 10
    if mr < 1 || 50 < mr then ⟨.error 422 detail422, 0⟩
    else recherche_web ddgsAvailable q mr (req.region.getD "fr-fr") providerResp

/-- Route dispatch of `GET /news`. -/
def dispatch_news (ddgsAvailable : Bool) (req : DdgsRawRequest)
    (providerResp : Except String (List RawNewsItem)) :
    DdgsOutcome NewsResponse :=
  match req.q with
  | none => ⟨.error 422 detail422, 0⟩
  | some q =>
    let mr := req.max_results.getD 10
    if mr < 1 || 50 < mr then ⟨.error 422 detail422, 0⟩
    else recherche_actualites ddgsAvailable q mr (req.region.getD "fr-fr")
      providerResp

/-- Route dispatch of `GET /images`. -/
def dispatch_images (ddgsAvailable : Bool) (req : DdgsRawRequest)
    (providerResp : Except String (List RawImageItem)) :
    DdgsOutcome ImagesResponse :=
  match req.q with
  | none => ⟨.error 422 detail422, 0⟩
  | some q =>
    let mr := req.max_results.getD 10
    if mr < 1 || 50 < mr then ⟨.error 422 detail422, 0⟩
    else recherche_images ddgsAvailable q mr (req.region.getD "fr-fr")
      providerResp

/-- Route dispatch of `GET /wikipedia` (no numeric constraint to check;
only `q` is required). -/
def dispatch_wikipedia (req : WikiRawRequest)
    (searchResp : Except String (List WikiSearchItem))
    (summaryResp : Except String (Option String)) : WikiOutcome :=
  match req.q with
  | none => ⟨.error 422 detail422, 0, 0⟩
  | some q => recherche_wikipedia q (req.lang.getD "fr") searchResp summaryResp

/-! ## Helper lemmas -/

/-- A string all of whose characters are Python whitespace strips to "". -/
theorem pyStrip_eq_empty {q : String}
    (h : ∀ c ∈ q.toList, isPySpace c) : pyStrip q = "" := by
  have h1 : q.data.dropWhile isPySpace = [] :=
    List.dropWhile_eq_nil_iff.mpr (fun c hc => h c hc)
  simp [pyStrip, h1]

/-- Success of `recherche_web` happens exactly on the provider-ok path and
produces the normalized map of the raw records. -/
theorem recherche_web_ok {a : Bool} {q : String} {mr : Int} {r : String}
    {p : Except String (List RawWebItem)} {b : WebResponse}
    (h : (recherche_web a q mr r p).response = .ok b) :
    ∃ raw, p = .ok raw ∧
      b = { query := q, region := r, count := (raw.map normWeb).length,
            results := raw.map normWeb } := by
  unfold recherche_web at h
  split at h
  · exact absurd h (by simp [HttpResult.errStatus])
  · split at h
    · exact absurd h (by simp [HttpResult.errStatus])
    · cases p with
      | error e => simp at h
      | ok raw =>
        simp only [] at h
        exact ⟨raw, rfl, by simpa using h.symm⟩

/-- Success characterization of `recherche_actualites`. -/
theorem recherche_actualites_ok {a : Bool} {q : String} {mr : Int}
    {r : String} {p : Except String (List RawNewsItem)} {b : NewsResponse}
    (h : (recherche_actualites a q mr r p).response = .ok b) :
    ∃ raw, p = .ok raw ∧
      b = { query := q, region := r, count := (raw.map normNews).length,
            results := raw.map normNews } := by
  unfold recherche_actualites at h
  split at h
  · exact absurd h (by simp)
  · split at h
    · exact absurd h (by simp)
    · cases p with
      | error e => simp at h
      | ok raw =>
        simp only [] at h
        exact ⟨raw, rfl, by simpa using h.symm⟩

/-- Success characterization of `recherche_images`. -/
theorem recherche_images_ok {a : Bool} {q : String} {mr : Int}
    {r : String} {p : Except String (List RawImageItem)} {b : ImagesResponse}
    (h : (recherche_images a q mr r p).response = .ok b) :
    ∃ raw, p = .ok raw ∧
      b = { query := q, region := r, count := (raw.map normImages).length,
            results := raw.map normImages } := by
  unfold recherche_images at h
  split at h
  · exact absurd h (by simp)
  · split at h
    · exact absurd h (by simp)
    · cases p with
      | error e => simp at h
      | ok raw =>
        simp only [] at h
        exact ⟨raw, rfl, by simpa using h.symm⟩

/-- Success of `recherche_wikipedia` is either the zero-candidate
short-circuit body or the full body built from the two provider calls. -/
theorem recherche_wikipedia_ok {q lang : String}
    {sr : Except String (List WikiSearchItem)}
    {sum : Except String (Option String)} {b : WikiResponse}
    (h : (recherche_wikipedia q lang sr sum).response = .ok b) :
    (sr = .ok [] ∧
      b = { query := q, lang := lang, count := 0, top_article := none,
            results := [] }) ∨
    (∃ first rest topt results top_title,
      sr = .ok (first :: rest) ∧ sum = .ok topt ∧
      first.title = some top_title ∧
      mapExcept (normWiki lang) (first :: rest) = .ok results ∧
      b = { query := q, lang := lang, count := results.length,
            top_article := some
              { title := top_title
                url := wikiUrl lang top_title
                extract := pySlice 1000 (topt.getD "") }
            results := results }) := by
  unfold recherche_wikipedia at h
  split at h
  · exact absurd h (by simp)
  · cases sr with
    | error e => simp at h
    | ok search_results =>
      cases search_results with
      | nil =>
        left
        simp only [] at h
        exact ⟨rfl, by simpa using h.symm⟩
      | cons first rest =>
        right
        simp only [] at h
        cases hft : first.title with
        | none => rw [hft] at h; simp at h
        | some top_title =>
          rw [hft] at h
          cases sum with
          | error e => simp at h
          | ok topt =>
            simp only [] at h
            cases hm : mapExcept (normWiki lang) (first :: rest) with
            | error e => rw [hm] at h; simp at h
            | ok results =>
              rw [hm] at h
              simp only [] at h
              exact ⟨first, rest, topt, results, top_title, rfl, rfl, hft,
                hm, by simpa using h.symm⟩

/-- Every element of a successful `mapExcept` comes from some input. -/
theorem mapExcept_ok_mem {f : α → Except ε β} {l : List α} {rs : List β}
    (h : mapExcept f l = .ok rs) {r : β} (hr : r ∈ rs) :
    ∃ a ∈ l, f a = .ok r := by
  induction l generalizing rs with
  | nil =>
    simp [mapExcept] at h
    subst h
    exact absurd hr (by simp)
  | cons a l ih =>
    unfold mapExcept at h
    cases hfa : f a with
    | error e => rw [hfa] at h; simp at h
    | ok b =>
      rw [hfa] at h
      cases hml : mapExcept f l with
      | error e => rw [hml] at h; simp at h
      | ok bs =>
        rw [hml] at h
        simp only [Except.ok.injEq] at h
        subst h
        rcases List.mem_cons.mp hr with hrb | hrbs
        · exact ⟨a, List.mem_cons_self a l, by rw [hfa, hrb]⟩
        · rcases ih hml hrbs with ⟨a0, ha0, hfa0⟩
          exact ⟨a0, List.mem_cons_of_mem a ha0, hfa0⟩

/-- If some input fails, `mapExcept` fails. -/
theorem mapExcept_error_of_mem {f : α → Except ε β} {l : List α} {a : α}
    (ha : a ∈ l) {e0 : ε} (hfa : f a = .error e0) :
    ∃ e, mapExcept f l = .error e := by
  induction l with
  | nil => exact absurd ha (by simp)
  | cons x l ih =>
    unfold mapExcept
    cases hfx : f x with
    | error e => exact ⟨e, rfl⟩
    | ok b =>
      rcases List.mem_cons.mp ha with hax | hal
      · rw [← hax] at hfx
        rw [hfx] at hfa
        exact absurd hfa (by simp)
      · rcases ih hal with ⟨e, he⟩
        exact ⟨e, by rw [he]⟩

/-- A blank `q` short-circuits `recherche_web` to 400, no provider call. -/
theorem recherche_web_blank {a : Bool} {q : String} {mr : Int} {r : String}
    {p : Except String (List RawWebItem)} (hq : pyStrip q = "") :
    recherche_web a q mr r p = ⟨.error 400 detailBlankQ, 0⟩ := by
  simp [recherche_web, hq]

/-- A blank `q` short-circuits `recherche_actualites` to 400. -/
theorem recherche_actualites_blank {a : Bool} {q : String} {mr : Int}
    {r : String} {p : Except String (List RawNewsItem)}
    (hq : pyStrip q = "") :
    recherche_actualites a q mr r p = ⟨.error 400 detailBlankQ, 0⟩ := by
  simp [recherche_actualites, hq]

/-- A blank `q` short-circuits `recherche_images` to 400. -/
theorem recherche_images_blank {a : Bool} {q : String} {mr : Int}
    {r : String} {p : Except String (List RawImageItem)}
    (hq : pyStrip q = "") :
    recherche_images a q mr r p = ⟨.error 400 detailBlankQ, 0⟩ := by
  simp [recherche_images, hq]

/-- A blank `q` short-circuits `recherche_wikipedia` to 400, with neither
of the two provider calls issued. -/
theorem recherche_wikipedia_blank {q lang : String}
    {sr : Except String (List WikiSearchItem)}
    {sum : Except String (Option String)} (hq : pyStrip q = "") :
    recherche_wikipedia q lang sr sum = ⟨.error 400 detailBlankQ, 0, 0⟩ := by
  simp [recherche_wikipedia, hq]

/-- Python slicing `s[:n]` yields at most `n` characters. -/
theorem pySlice_length_le (n : Nat) (s : String) :
    (pySlice n s).length ≤ n := by
  have h0 : (pySlice n s).length = (s.toList.take n).length := rfl
  rw [h0, List.length_take]
  omega

/-- Python slicing `s[:n]` returns `s` unchanged when `s` has at most `n`
characters. -/
theorem pySlice_of_length_le {n : Nat} {s : String} (h : s.length ≤ n) :
    pySlice n s = s := by
  unfold pySlice
  have h2 : s.toList.length ≤ n := h
  rw [List.take_of_length_le h2]
  rfl

/-- When the declared `max_results` validation passes (absent parameter or
value in [1,50]), `/search` dispatch reaches the handler body. -/
theorem dispatch_search_valid (avail : Bool) (q : String) (omr : Option Int)
    (oreg : Option String) (p : Except String (List RawWebItem))
    (hmr : omr = none ∨ ∃ mr, omr = some mr ∧ 1 ≤ mr ∧ mr ≤ 50) :
    dispatch_search avail ⟨some q, omr, oreg⟩ p =
      recherche_web avail q (omr.getD 10) (oreg.getD "fr-fr") p := by
  rcases hmr with hnone | ⟨mr, hsome, h1, h2⟩
  · subst hnone
    simp [dispatch_search]
  · subst hsome
    have hc : (decide (mr < 1) || decide (50 < mr)) = false := by
      simp only [Bool.or_eq_false_iff, decide_eq_false_iff_not]
      omega
    simp [dispatch_search, hc]

/-- Valid `max_results` reaches the `/news` handler body. -/
theorem dispatch_news_valid (avail : Bool) (q : String) (omr : Option Int)
    (oreg : Option String) (p : Except String (List RawNewsItem))
    (hmr : omr = none ∨ ∃ mr, omr = some mr ∧ 1 ≤ mr ∧ mr ≤ 50) :
    dispatch_news avail ⟨some q, omr, oreg⟩ p =
      recherche_actualites avail q (omr.getD 10) (oreg.getD "fr-fr") p := by
  rcases hmr with hnone | ⟨mr, hsome, h1, h2⟩
  · subst hnone
    simp [dispatch_news]
  · subst hsome
    have hc : (decide (mr < 1) || decide (50 < mr)) = false := by
      simp only [Bool.or_eq_false_iff, decide_eq_false_iff_not]
      omega
    simp [dispatch_news, hc]

/-- Valid `max_results` reaches the `/images` handler body. -/
theorem dispatch_images_valid (avail : Bool) (q : String) (omr : Option Int)
    (oreg : Option String) (p : Except String (List RawImageItem))
    (hmr : omr = none ∨ ∃ mr, omr = some mr ∧ 1 ≤ mr ∧ mr ≤ 50) :
    dispatch_images avail ⟨some q, omr, oreg⟩ p =
      recherche_images avail q (omr.getD 10) (oreg.getD "fr-fr") p := by
  rcases hmr with hnone | ⟨mr, hsome, h1, h2⟩
  · subst hnone
    simp [dispatch_images]
  · subst hsome
    have hc : (decide (mr < 1) || decide (50 < mr)) = false := by
      simp only [Bool.or_eq_false_iff, decide_eq_false_iff_not]
      omega
    simp [dispatch_images, hc]

/-! ## Claim theorems -/

/-- C1: for every success response of `/search`, `/news`, `/images` and
`/wikipedia`, the `count` field equals the length of the accompanying
`results` list. -/
theorem C1_count_eq_results_length :
    (∀ (a : Bool) (q : String) (mr : Int) (r : String) p (b : WebResponse),
      (recherche_web a q mr r p).response = .ok b →
      b.count = b.results.length) ∧
    (∀ (a : Bool) (q : String) (mr : Int) (r : String) p (b : NewsResponse),
      (recherche_actualites a q mr r p).response = .ok b →
      b.count = b.results.length) ∧
    (∀ (a : Bool) (q : String) (mr : Int) (r : String) p (b : ImagesResponse),
      (recherche_images a q mr r p).response = .ok b →
      b.count = b.results.length) ∧
    (∀ (q lang : String) sr sum (b : WikiResponse),
      (recherche_wikipedia q lang sr sum).response = .ok b →
      b.count = b.results.length) := by
  refine ⟨?_, ?_, ?_, ?_⟩
  · intro a q mr r p b h
    rcases recherche_web_ok h with ⟨raw, hp, hb⟩
    subst hb
    rfl
  · intro a q mr r p b h
    rcases recherche_actualites_ok h with ⟨raw, hp, hb⟩
    subst hb
    rfl
  · intro a q mr r p b h
    rcases recherche_images_ok h with ⟨raw, hp, hb⟩
    subst hb
    rfl
  · intro q lang sr sum b h
    rcases recherche_wikipedia_ok h with ⟨hsr, hb⟩ |
      ⟨f, rest, topt, results, tt, hsr, hsum, hft, hm, hb⟩ <;> subst hb <;> rfl

/-- C1 witness: the invariant checked on one concrete success response of
each of the four endpoints. -/
theorem C1_count_eq_results_length_witness :
    (({ query := "a", region := "fr-fr", count := 0, results := [] } :
        WebResponse).count =
      ({ query := "a", region := "fr-fr", count := 0, results := [] } :
        WebResponse).results.length) ∧
    (({ query := "a", region := "fr-fr", count := 0, results := [] } :
        NewsResponse).count =
      ({ query := "a", region := "fr-fr", count := 0, results := [] } :
        NewsResponse).results.length) ∧
    (({ query := "a", region := "fr-fr", count := 0, results := [] } :
        ImagesResponse).count =
      ({ query := "a", region := "fr-fr", count := 0, results := [] } :
        ImagesResponse).results.length) ∧
    (({ query := "a", lang := "fr", count := 0, top_article := none,
        results := [] } : WikiResponse).count =
      ({ query := "a", lang := "fr", count := 0, top_article := none,
         results := [] } : WikiResponse).results.length) :=
  ⟨C1_count_eq_results_length.1 true "a" 10 "fr-fr" (.ok [])
      { query := "a", region := "fr-fr", count := 0, results := [] }
      (by decide),
   C1_count_eq_results_length.2.1 true "a" 10 "fr-fr" (.ok [])
      { query := "a", region := "fr-fr", count := 0, results := [] }
      (by decide),
   C1_count_eq_results_length.2.2.1 true "a" 10 "fr-fr" (.ok [])
      { query := "a", region := "fr-fr", count := 0, results := [] }
      (by decide),
   C1_count_eq_results_length.2.2.2 "a" "fr" (.ok []) (.ok none)
      { query := "a", lang := "fr", count := 0, top_article := none,
        results := [] }
      (by decide)⟩

/-- C5: the `top_article.extract` field of `/wikipedia` has at most 1000
characters for any provider extract text, and provider text of at most
1000 characters is returned unchanged. -/
theorem C5_extract_capped (q lang : String)
    (sr : Except String (List WikiSearchItem)) (topt : Option String)
    (b : WikiResponse) (ta : TopArticle)
    (h : (recherche_wikipedia q lang sr (.ok topt)).response = .ok b)
    (hta : b.top_article = some ta) :
    ta.extract.length ≤ 1000 ∧
      ((topt.getD "").length ≤ 1000 → ta.extract = topt.getD "") := by
  rcases recherche_wikipedia_ok h with ⟨hsr, hb⟩ |
    ⟨f, rest, topt2, results, tt, hsr, hsum, hft, hm, hb⟩
  · subst hb
    simp at hta
  · subst hb
    injection hsum with hsum2
    subst hsum2
    simp only [Option.some.injEq] at hta
    subst hta
    exact ⟨pySlice_length_le 1000 _, fun hlen => pySlice_of_length_le hlen⟩

/-- C5 witness: a concrete /wikipedia success whose provider extract "ex"
is short, hence returned unchanged within the 1000-character cap. -/
theorem C5_extract_capped_witness :
    ({ title := "T", url := "https://fr.wikipedia.org/wiki/T",
       extract := "ex" } : TopArticle).extract.length ≤ 1000 ∧
      (((some "ex" : Option String).getD "").length ≤ 1000 →
        ({ title := "T", url := "https://fr.wikipedia.org/wiki/T",
           extract := "ex" } : TopArticle).extract =
          (some "ex" : Option String).getD "") :=
  C5_extract_capped "a" "fr"
    (.ok [{ title := some "T", snippet := none, wordcount := none }])
    (some "ex")
    { query := "a", lang := "fr", count := 1,
      top_article := some
        { title := "T", url := "https://fr.wikipedia.org/wiki/T",
          extract := "ex" }
      results := [{ title := "T", url := "https://fr.wikipedia.org/wiki/T",
                    snippet := "", wordcount := 0 }] }
    { title := "T", url := "https://fr.wikipedia.org/wiki/T",
      extract := "ex" }
    (by decide) (by decide)

/-- C6: a /wikipedia request (valid `q`) whose search call yields zero
candidates succeeds with `count = 0`, empty `results`, and the second
(extract-fetch) provider call is never issued. -/
theorem C6_zero_candidates_short_circuit (q lang : String)
    (sum : Except String (Option String)) (hq : pyStrip q ≠ "") :
    (recherche_wikipedia q lang (.ok []) sum).response =
      .ok { query := q, lang := lang, count := 0, top_article := none,
            results := [] } ∧
    (recherche_wikipedia q lang (.ok []) sum).fetchCalls = 0 := by
  have hq0 : q ≠ "" := fun h0 => hq (by rw [h0]; rfl)
  have h0 : recherche_wikipedia q lang (.ok []) sum =
      ⟨.ok { query := q, lang := lang, count := 0, top_article := none,
             results := [] }, 1, 0⟩ := by
    unfold recherche_wikipedia
    rw [if_neg (by simp [hq0, hq])]
  rw [h0]
  exact ⟨rfl, rfl⟩

/-- C6 witness: concrete zero-candidate request. -/
theorem C6_zero_candidates_short_circuit_witness :
    (recherche_wikipedia "Paris" "fr" (.ok []) (.ok none)).response =
      .ok { query := "Paris", lang := "fr", count := 0, top_article := none,
            results := [] } ∧
    (recherche_wikipedia "Paris" "fr" (.ok []) (.ok none)).fetchCalls = 0 :=
  C6_zero_candidates_short_circuit "Paris" "fr" (.ok none) (by decide)

/-- C9: with zero search candidates the /wikipedia success body carries no
`top_article` key at all (modelled as `top_article = none`), although the
documented success shape lists the field. -/
theorem C9_top_article_omitted_on_empty (q lang : String)
    (sum : Except String (Option String)) (hq : pyStrip q ≠ "") :
    ∃ b, (recherche_wikipedia q lang (.ok []) sum).response = .ok b ∧
      b.top_article = none ∧ b.count = 0 := by
  have hq0 : q ≠ "" := fun h0 => hq (by rw [h0]; rfl)
  have h0 : recherche_wikipedia q lang (.ok []) sum =
      ⟨.ok { query := q, lang := lang, count := 0, top_article := none,
             results := [] }, 1, 0⟩ := by
    unfold recherche_wikipedia
    rw [if_neg (by simp [hq0, hq])]
  exact ⟨_, by rw [h0], rfl, rfl⟩

/-- C9 witness: concrete zero-candidate request has no `top_article`. -/
theorem C9_top_article_omitted_on_empty_witness :
    ∃ b, (recherche_wikipedia "Rome" "fr" (.ok []) (.ok none)).response =
        .ok b ∧ b.top_article = none ∧ b.count = 0 :=
  C9_top_article_omitted_on_empty "Rome" "fr" (.ok none) (by decide)

/-- C7: every URL `/wikipedia` builds — the `top_article` URL and each
result URL — is the string `https://` ++ lang ++ `.wikipedia.org/wiki/`
++ the page title with every space replaced by an underscore. -/
theorem C7_url_construction (q lang : String)
    (sr : Except String (List WikiSearchItem))
    (sum : Except String (Option String)) (b : WikiResponse)
    (ta : TopArticle)
    (h : (recherche_wikipedia q lang sr sum).response = .ok b)
    (hta : b.top_article = some ta) :
    ta.url = "https://" ++ lang ++ ".wikipedia.org/wiki/" ++
      underscoreSpaces ta.title ∧
    ∀ r ∈ b.results,
      r.url = "https://" ++ lang ++ ".wikipedia.org/wiki/" ++
        underscoreSpaces r.title := by
  rcases recherche_wikipedia_ok h with ⟨hsr, hb⟩ |
    ⟨f, rest, topt, results, tt, hsr, hsum, hft, hm, hb⟩
  · subst hb
    simp at hta
  · subst hb
    simp only [Option.some.injEq] at hta
    subst hta
    refine ⟨rfl, ?_⟩
    intro r hr
    rcases mapExcept_ok_mem hm hr with ⟨item, hitem, hni⟩
    unfold normWiki at hni
    cases hit : item.title with
    | none =>
      rw [hit] at hni
      exact absurd hni (by simp)
    | some t =>
      rw [hit] at hni
      simp only [Except.ok.injEq] at hni
      subst hni
      rfl

/-- C7 witness: the spec example — a top candidate titled "Paris" with
lang "fr" yields the URL `https://fr.wikipedia.org/wiki/Paris`. -/
theorem C7_url_construction_witness :
    ({ title := "Paris", url := "https://fr.wikipedia.org/wiki/Paris",
       extract := "Paris est la capitale de la France." } :
        TopArticle).url =
      "https://" ++ "fr" ++ ".wikipedia.org/wiki/" ++
        underscoreSpaces
          ({ title := "Paris", url := "https://fr.wikipedia.org/wiki/Paris",
             extract := "Paris est la capitale de la France." } :
            TopArticle).title ∧
    ∀ r ∈ [({ title := "Paris", url := "https://fr.wikipedia.org/wiki/Paris",
              snippet := "s", wordcount := 5 } : WikiResultItem)],
      r.url = "https://" ++ "fr" ++ ".wikipedia.org/wiki/" ++
        underscoreSpaces r.title :=
  C7_url_construction "Paris" "fr"
    (.ok [{ title := some "Paris", snippet := some "s",
            wordcount := some 5 }])
    (.ok (some "Paris est la capitale de la France."))
    { query := "Paris", lang := "fr", count := 1,
      top_article := some
        { title := "Paris", url := "https://fr.wikipedia.org/wiki/Paris",
          extract := "Paris est la capitale de la France." }
      results := [{ title := "Paris",
                    url := "https://fr.wikipedia.org/wiki/Paris",
                    snippet := "s", wordcount := 5 }] }
    { title := "Paris", url := "https://fr.wikipedia.org/wiki/Paris",
      extract := "Paris est la capitale de la France." }
    (by decide) (by decide)

/-- C10: in the /wikipedia normalizer a candidate title is read without a
default, so a search record lacking the title key makes the whole request
fail with a 503 response — while /search replaces an absent title by its
default and still succeeds. -/
theorem C10_missing_title_503 (q lang : String)
    (items : List WikiSearchItem) (sum : Except String (Option String))
    (item : WikiSearchItem) (hmem : item ∈ items) (hti : item.title = none)
    (hq : pyStrip q ≠ "") :
    (recherche_wikipedia q lang (.ok items) sum).response.errStatus =
      some 503 ∧
    (recherche_web true q 10 "fr-fr"
        (.ok [{ title := none, href := none, body := none }])).response =
      .ok { query := q, region := "fr-fr", count := 1,
            results := [{ title := "Sans titre", url := "", content := "",
                          source := "DuckDuckGo" }] } := by
  have hq0 : q ≠ "" := fun h0 => hq (by rw [h0]; rfl)
  constructor
  · unfold recherche_wikipedia
    rw [if_neg (by simp [hq0, hq])]
    cases items with
    | nil => exact absurd hmem (by simp)
    | cons first rest =>
      simp only []
      cases hft : first.title with
      | none => rfl
      | some tt =>
        cases sum with
        | error e => rfl
        | ok topt =>
          simp only []
          rcases mapExcept_error_of_mem hmem
              (show normWiki lang item = .error keyErrorTitle by
                unfold normWiki
                rw [hti]) with ⟨e, he⟩
          rw [he]
          rfl
  · unfold recherche_web
    rw [if_neg (by simp [hq0, hq])]
    rfl

/-- C10 witness: a concrete titleless search record yields 503 on
/wikipedia while /search defaults the title. -/
theorem C10_missing_title_503_witness :
    (recherche_wikipedia "a" "fr"
        (.ok [{ title := none, snippet := none, wordcount := none }])
        (.ok none)).response.errStatus = some 503 ∧
    (recherche_web true "a" 10 "fr-fr"
        (.ok [{ title := none, href := none, body := none }])).response =
      .ok { query := "a", region := "fr-fr", count := 1,
            results := [{ title := "Sans titre", url := "", content := "",
                          source := "DuckDuckGo" }] } :=
  C10_missing_title_503 "a" "fr"
    [{ title := none, snippet := none, wordcount := none }] (.ok none)
    { title := none, snippet := none, wordcount := none }
    (by simp) rfl (by decide)

/-- C2 counterexample: with `max_results = 1` and a provider double
returning two raw records, `/search` answers success with two results —
the handler itself never truncates, so `len(results) ≤ maxResults`
fails. -/
theorem C2_cap_counterexample :
    ((dispatch_search true
        { q := some "python tutorial", max_results := some 1,
          region := some "en-us" }
        (.ok [{ title := some "A", href := some "a", body := some "" },
              { title := some "B", href := some "b",
                body := some "" }])).response.body?.map
      (fun b => b.results.length)) = some 2 ∧
    ¬ (2 : Nat) ≤ 1 :=
  ⟨by decide, by decide⟩

/-- C2 amended: the endpoints return exactly one result per raw provider
record, so `len(results) ≤ maxResults` holds exactly when the provider
honors the cap and returns at most `maxResults` records. -/
theorem C2_cap_delegated_to_provider :
    (∀ (a : Bool) (q : String) (mr : Int) (r : String) raw
        (b : WebResponse), 1 ≤ mr → mr ≤ 50 →
      (recherche_web a q mr r (.ok raw)).response = .ok b →
      b.results.length = raw.length ∧
        (raw.length ≤ mr.toNat → b.results.length ≤ mr.toNat)) ∧
    (∀ (a : Bool) (q : String) (mr : Int) (r : String) raw
        (b : NewsResponse), 1 ≤ mr → mr ≤ 50 →
      (recherche_actualites a q mr r (.ok raw)).response = .ok b →
      b.results.length = raw.length ∧
        (raw.length ≤ mr.toNat → b.results.length ≤ mr.toNat)) ∧
    (∀ (a : Bool) (q : String) (mr : Int) (r : String) raw
        (b : ImagesResponse), 1 ≤ mr → mr ≤ 50 →
      (recherche_images a q mr r (.ok raw)).response = .ok b →
      b.results.length = raw.length ∧
        (raw.length ≤ mr.toNat → b.results.length ≤ mr.toNat)) := by
  refine ⟨?_, ?_, ?_⟩
  · intro a q mr r raw b _h1 _h2 h
    rcases recherche_web_ok h with ⟨raw2, hp, hb⟩
    injection hp with hp2
    subst hp2
    subst hb
    refine ⟨by simp, fun hle => ?_⟩
    simpa using hle
  · intro a q mr r raw b _h1 _h2 h
    rcases recherche_actualites_ok h with ⟨raw2, hp, hb⟩
    injection hp with hp2
    subst hp2
    subst hb
    refine ⟨by simp, fun hle => ?_⟩
    simpa using hle
  · intro a q mr r raw b _h1 _h2 h
    rcases recherche_images_ok h with ⟨raw2, hp, hb⟩
    injection hp with hp2
    subst hp2
    subst hb
    refine ⟨by simp, fun hle => ?_⟩
    simpa using hle

/-- C2 witness: a concrete valid request per endpoint with a provider
honoring the cap. -/
theorem C2_cap_delegated_to_provider_witness :
    (({ query := "x", region := "fr-fr", count := 1,
        results := [{ title := "A", url := "a", content := "",
                      source := "DuckDuckGo" }] } :
        WebResponse).results.length =
      [({ title := some "A", href := some "a", body := some "" } :
        RawWebItem)].length ∧
      ([({ title := some "A", href := some "a", body := some "" } :
        RawWebItem)].length ≤ (2 : Int).toNat →
        ({ query := "x", region := "fr-fr", count := 1,
           results := [{ title := "A", url := "a", content := "",
                         source := "DuckDuckGo" }] } :
          WebResponse).results.length ≤ (2 : Int).toNat)) ∧
    (({ query := "x", region := "fr-fr", count := 0, results := [] } :
        NewsResponse).results.length = ([] : List RawNewsItem).length ∧
      (([] : List RawNewsItem).length ≤ (2 : Int).toNat →
        ({ query := "x", region := "fr-fr", count := 0, results := [] } :
          NewsResponse).results.length ≤ (2 : Int).toNat)) ∧
    (({ query := "x", region := "fr-fr", count := 0, results := [] } :
        ImagesResponse).results.length = ([] : List RawImageItem).length ∧
      (([] : List RawImageItem).length ≤ (2 : Int).toNat →
        ({ query := "x", region := "fr-fr", count := 0, results := [] } :
          ImagesResponse).results.length ≤ (2 : Int).toNat)) :=
  ⟨C2_cap_delegated_to_provider.1 true "x" 2 "fr-fr"
      [{ title := some "A", href := some "a", body := some "" }]
      { query := "x", region := "fr-fr", count := 1,
        results := [{ title := "A", url := "a", content := "",
                      source := "DuckDuckGo" }] }
      (by decide) (by decide) (by decide),
   C2_cap_delegated_to_provider.2.1 true "x" 2 "fr-fr" []
      { query := "x", region := "fr-fr", count := 0, results := [] }
      (by decide) (by decide) (by decide),
   C2_cap_delegated_to_provider.2.2 true "x" 2 "fr-fr" []
      { query := "x", region := "fr-fr", count := 0, results := [] }
      (by decide) (by decide) (by decide)⟩

/-- C3 counterexample: a `/search` request whose `q` is all whitespace but
whose `max_results` is 0 is rejected by the declared FastAPI parameter
validation with status 422, not 400 — so "status 400 regardless of the
other parameters" fails. -/
theorem C3_whitespace_counterexample :
    (dispatch_search true
        { q := some " ", max_results := some 0, region := none }
        (.ok [])).response.errStatus = some 422 ∧
    (422 : Nat) ≠ 400 :=
  ⟨by decide, by decide⟩

/-- C3 amended: an empty or all-whitespace `q` yields a 400 response with
no provider call, on every endpoint, provided the other parameters pass
their declared validations (`max_results` absent or in [1,50]; `/wikipedia`
has no further constrained parameter). -/
theorem C3_whitespace_rejected :
    (∀ (avail : Bool) (omr : Option Int) (oreg : Option String) p
        (q : String), (∀ c ∈ q.toList, isPySpace c) →
      (omr = none ∨ ∃ mr, omr = some mr ∧ 1 ≤ mr ∧ mr ≤ 50) →
      dispatch_search avail ⟨some q, omr, oreg⟩ p =
        ⟨.error 400 detailBlankQ, 0⟩) ∧
    (∀ (avail : Bool) (omr : Option Int) (oreg : Option String) p
        (q : String), (∀ c ∈ q.toList, isPySpace c) →
      (omr = none ∨ ∃ mr, omr = some mr ∧ 1 ≤ mr ∧ mr ≤ 50) →
      dispatch_news avail ⟨some q, omr, oreg⟩ p =
        ⟨.error 400 detailBlankQ, 0⟩) ∧
    (∀ (avail : Bool) (omr : Option Int) (oreg : Option String) p
        (q : String), (∀ c ∈ q.toList, isPySpace c) →
      (omr = none ∨ ∃ mr, omr = some mr ∧ 1 ≤ mr ∧ mr ≤ 50) →
      dispatch_images avail ⟨some q, omr, oreg⟩ p =
        ⟨.error 400 detailBlankQ, 0⟩) ∧
    (∀ (olang : Option String) sr sum (q : String),
      (∀ c ∈ q.toList, isPySpace c) →
      dispatch_wikipedia ⟨some q, olang⟩ sr sum =
        ⟨.error 400 detailBlankQ, 0, 0⟩) := by
  refine ⟨?_, ?_, ?_, ?_⟩
  · intro avail omr oreg p q hws hmr
    rw [dispatch_search_valid avail q omr oreg p hmr]
    exact recherche_web_blank (pyStrip_eq_empty hws)
  · intro avail omr oreg p q hws hmr
    rw [dispatch_news_valid avail q omr oreg p hmr]
    exact recherche_actualites_blank (pyStrip_eq_empty hws)
  · intro avail omr oreg p q hws hmr
    rw [dispatch_images_valid avail q omr oreg p hmr]
    exact recherche_images_blank (pyStrip_eq_empty hws)
  · intro olang sr sum q hws
    show recherche_wikipedia q (olang.getD "fr") sr sum = _
    exact recherche_wikipedia_blank (pyStrip_eq_empty hws)

/-- C3 witness: concrete all-whitespace queries on the four endpoints. -/
theorem C3_whitespace_rejected_witness :
    dispatch_search true ⟨some " ", none, none⟩ (.ok []) =
      ⟨.error 400 detailBlankQ, 0⟩ ∧
    dispatch_news true ⟨some "  ", some 10, none⟩ (.ok []) =
      ⟨.error 400 detailBlankQ, 0⟩ ∧
    dispatch_images true ⟨some "\t", none, some "en-us"⟩ (.ok []) =
      ⟨.error 400 detailBlankQ, 0⟩ ∧
    dispatch_wikipedia ⟨some "", some "en"⟩ (.ok []) (.ok none) =
      ⟨.error 400 detailBlankQ, 0, 0⟩ :=
  ⟨C3_whitespace_rejected.1 true none none (.ok []) " " (by decide)
      (Or.inl rfl),
   C3_whitespace_rejected.2.1 true (some 10) none (.ok []) "  " (by decide)
      (Or.inr ⟨10, rfl, by decide, by decide⟩),
   C3_whitespace_rejected.2.2.1 true none (some "en-us") (.ok []) "\t"
      (by decide) (Or.inl rfl),
   C3_whitespace_rejected.2.2.2 (some "en") (.ok []) (.ok none) ""
      (by decide)⟩

/-- C4 counterexample: `/search` with `max_results = 0` (and likewise 51)
is answered with HTTP status 422 by FastAPI request validation, not 400
as claimed. -/
theorem C4_out_of_range_counterexample :
    (dispatch_search true
        { q := some "paris", max_results := some 0, region := none }
        (.ok [])).response.errStatus = some 422 ∧
    (dispatch_search true
        { q := some "paris", max_results := some 51, region := none }
        (.ok [])).response.errStatus = some 422 ∧
    (422 : Nat) ≠ 400 :=
  ⟨by decide, by decide, by decide⟩

/-- C4 amended: `max_results` outside [1,50] on `/search`, `/news` or
`/images` is rejected before the handler runs, with HTTP status 422
(FastAPI `RequestValidationError`) and no provider call. -/
theorem C4_out_of_range_rejected_422 :
    (∀ (avail : Bool) (oq : Option String) (oreg : Option String) p
        (mr : Int), (mr < 1 ∨ 50 < mr) →
      (dispatch_search avail ⟨oq, some mr, oreg⟩ p).response =
        .error 422 detail422 ∧
      (dispatch_search avail ⟨oq, some mr, oreg⟩ p).providerCalls = 0) ∧
    (∀ (avail : Bool) (oq : Option String) (oreg : Option String) p
        (mr : Int), (mr < 1 ∨ 50 < mr) →
      (dispatch_news avail ⟨oq, some mr, oreg⟩ p).response =
        .error 422 detail422 ∧
      (dispatch_news avail ⟨oq, some mr, oreg⟩ p).providerCalls = 0) ∧
    (∀ (avail : Bool) (oq : Option String) (oreg : Option String) p
        (mr : Int), (mr < 1 ∨ 50 < mr) →
      (dispatch_images avail ⟨oq, some mr, oreg⟩ p).response =
        .error 422 detail422 ∧
      (dispatch_images avail ⟨oq, some mr, oreg⟩ p).providerCalls = 0) := by
  refine ⟨?_, ?_, ?_⟩
  · intro avail oq oreg p mr hout
    cases oq with
    | none => exact ⟨rfl, rfl⟩
    | some q =>
      have hc : (decide (mr < 1) || decide (50 < mr)) = true := by
        rcases hout with h | h <;> simp [h]
      constructor <;> simp [dispatch_search, hc]
  · intro avail oq oreg p mr hout
    cases oq with
    | none => exact ⟨rfl, rfl⟩
    | some q =>
      have hc : (decide (mr < 1) || decide (50 < mr)) = true := by
        rcases hout with h | h <;> simp [h]
      constructor <;> simp [dispatch_news, hc]
  · intro avail oq oreg p mr hout
    cases oq with
    | none => exact ⟨rfl, rfl⟩
    | some q =>
      have hc : (decide (mr < 1) || decide (50 < mr)) = true := by
        rcases hout with h | h <;> simp [h]
      constructor <;> simp [dispatch_images, hc]

/-- C4 witness: concrete boundary rejections at 0 and 51. -/
theorem C4_out_of_range_rejected_422_witness :
    ((dispatch_search true ⟨some "paris", some 0, none⟩
        (.ok [])).response = .error 422 detail422 ∧
      (dispatch_search true ⟨some "paris", some 0, none⟩
        (.ok [])).providerCalls = 0) ∧
    ((dispatch_news true ⟨some "paris", some 51, none⟩
        (.ok [])).response = .error 422 detail422 ∧
      (dispatch_news true ⟨some "paris", some 51, none⟩
        (.ok [])).providerCalls = 0) ∧
    ((dispatch_images true ⟨some "paris", some 0, none⟩
        (.ok [])).response = .error 422 detail422 ∧
      (dispatch_images true ⟨some "paris", some 0, none⟩
        (.ok [])).providerCalls = 0) :=
  ⟨C4_out_of_range_rejected_422.1 true (some "paris") none (.ok []) 0
      (Or.inl (by decide)),
   C4_out_of_range_rejected_422.2.1 true (some "paris") none (.ok []) 51
      (Or.inr (by decide)),
   C4_out_of_range_rejected_422.2.2 true (some "paris") none (.ok []) 0
      (Or.inl (by decide))⟩

/-- C8 counterexample: the `/search` normalizer defaults a missing title
to the French string "Sans titre", not to "Untitled" as claimed. -/
theorem C8_default_title_counterexample :
    (normWeb { title := none, href := none, body := none }).title =
      "Sans titre" ∧
    (normWeb { title := none, href := none, body := none }).title ≠
      "Untitled" :=
  ⟨rfl, by decide⟩

/-- C8 amended: for raw records with no title field the normalizers of
`/search`, `/news` and `/images` substitute the fixed default title
"Sans titre" (French for "Untitled"), and substitute the empty string
for the other absent string fields. -/
theorem C8_defaults :
    (∀ item : RawWebItem,
      (item.title = none → (normWeb item).title = "Sans titre") ∧
      (item.href = none → (normWeb item).url = "") ∧
      (item.body = none → (normWeb item).content = "")) ∧
    (∀ item : RawNewsItem,
      (item.title = none → (normNews item).title = "Sans titre") ∧
      (item.url = none → (normNews item).url = "") ∧
      (item.body = none → (normNews item).body = "") ∧
      (item.date = none → (normNews item).date = "") ∧
      (item.source = none → (normNews item).source = "")) ∧
    (∀ item : RawImageItem,
      (item.title = none → (normImages item).title = "Sans titre") ∧
      (item.url = none → (normImages item).url = "") ∧
      (item.image = none → (normImages item).image_url = "") ∧
      (item.thumbnail = none → (normImages item).thumbnail = "") ∧
      (item.source = none → (normImages item).source = "")) := by
  refine ⟨fun item => ⟨?_, ?_, ?_⟩, fun item => ⟨?_, ?_, ?_, ?_, ?_⟩,
    fun item => ⟨?_, ?_, ?_, ?_, ?_⟩⟩ <;>
  · intro h
    simp [normWeb, normNews, normImages, h]

/-- C8 witness: fully absent raw records on the three endpoints. -/
theorem C8_defaults_witness :
    ((normWeb rawWebEmpty).title = "Sans titre" ∧
      (normWeb rawWebEmpty).url = "" ∧
      (normWeb rawWebEmpty).content = "") ∧
    ((normNews rawNewsEmpty).title = "Sans titre" ∧
      (normNews rawNewsEmpty).url = "" ∧
      (normNews rawNewsEmpty).body = "" ∧
      (normNews rawNewsEmpty).date = "" ∧
      (normNews rawNewsEmpty).source = "") ∧
    ((normImages rawImageEmpty).title = "Sans titre" ∧
      (normImages rawImageEmpty).url = "" ∧
      (normImages rawImageEmpty).image_url = "" ∧
      (normImages rawImageEmpty).thumbnail = "" ∧
      (normImages rawImageEmpty).source = "") :=
  ⟨⟨(C8_defaults.1 rawWebEmpty).1 rfl,
    (C8_defaults.1 rawWebEmpty).2.1 rfl,
    (C8_defaults.1 rawWebEmpty).2.2 rfl⟩,
   ⟨(C8_defaults.2.1 rawNewsEmpty).1 rfl,
    (C8_defaults.2.1 rawNewsEmpty).2.1 rfl,
    (C8_defaults.2.1 rawNewsEmpty).2.2.1 rfl,
    (C8_defaults.2.1 rawNewsEmpty).2.2.2.1 rfl,
    (C8_defaults.2.1 rawNewsEmpty).2.2.2.2 rfl⟩,
   ⟨(C8_defaults.2.2 rawImageEmpty).1 rfl,
    (C8_defaults.2.2 rawImageEmpty).2.1 rfl,
    (C8_defaults.2.2 rawImageEmpty).2.2.1 rfl,
    (C8_defaults.2.2 rawImageEmpty).2.2.2.1 rfl,
    (C8_defaults.2.2 rawImageEmpty).2.2.2.2 rfl⟩⟩

end ApiRechercheWeb
